import Mathlib

set_option maxRecDepth 8192

/-!
Shallow embedding of src/backend/test_scripts/queries.py.

The file defines two functions, query_graph and query_binance, each of which
builds one HTTP request from hardcoded literals, sends it, prints the HTTP
status code, and returns (part of) the JSON-decoded response body.

The HTTP layer is modelled as a function from requests to responses (the
mocked gateway).  A response body that is not valid JSON is modelled as
Option.none, in which case the json() decoding step raises.  Each embedded
function returns the list of observable events it performed, in order
(the request it sent, then the status code it printed), together with the
value it returns or the error it raises.
-/

/-- JSON values as decoded by the HTTP client library's json() method. -/
inductive Json where
  | null : Json
  | bool (b : Bool) : Json
  | num (n : Int) : Json
  | str (s : String) : Json
  | arr (elems : List Json) : Json
  | obj (fields : List (String × Json)) : Json

/-- Errors that a call can raise: the json() decode failure, a dict key
lookup failure, and subscripting a non-dict value. -/
inductive PyErr where
  | jsonDecodeError : PyErr
  | keyError (k : String) : PyErr
  | typeError : PyErr

/-- Python subscript j[k] on a decoded JSON value: a KeyError on a dict
without the key, a TypeError when j is not a dict. -/
def Json.getItem : Json → String → Except PyErr Json
  | Json.obj fields, k =>
      match List.lookup k fields with
      | some v => Except.ok v
      | none => Except.error (PyErr.keyError k)
  | _, _ => Except.error PyErr.typeError

/-- Whether a decoded JSON value is a dict that has key k. -/
def Json.hasKey : Json → String → Bool
  | Json.obj fields, k => (List.lookup k fields).isSome
  | _, _ => false

/-- HTTP method of a request. -/
inductive Method where
  | get : Method
  | post : Method

/-- An outgoing HTTP request: method, URL, headers, and the JSON body that
the json= keyword of the client serializes (none for a GET with no body). -/
structure Request where
  method : Method
  url : String
  headers : List (String × String)
  jsonBody : Option Json

/-- An HTTP response: status code and the JSON decoding of its body; none
models a body that is not valid JSON, on which json() raises. -/
structure Response where
  status_code : Nat
  body : Option Json

namespace requests

/-- requests.post url headers json builds a POST request with the given
JSON body, serialized by the library; the body is valid JSON by
construction. -/
def post (url : String) (headers : List (String × String)) (json : Json) : Request :=
  ⟨Method.post, url, headers, some json⟩

/-- requests.get url builds a plain GET request with no body. -/
def get (url : String) : Request :=
  ⟨Method.get, url, [], none⟩

end requests

/-- Observable events of one call: the request sent to the HTTP layer and
the status code printed to standard output, in order. -/
inductive Event where
  | sent (req : Request) : Event
  | printed (status : Nat) : Event

/-- Whether an event is an HTTP request being sent. -/
def Event.isSent : Event → Bool
  | Event.sent _ => true
  | Event.printed _ => false

/-- The local variable q of query_graph: the GraphQL document, character for
character as the triple-quoted Python literal, including the missing comma
between the third and the fourth pool address. -/
def graphQL_q : String :=
  "\n  \x7b\n    swaps(where:\x7bpool_in:[\"0x88e6a0c2ddd26feeb64f039a2c41296fcb3f5640\",\n                          \"0x8ad599c3a0ff1de082011efddc58f1908eb6e6d8\",\n                          \"0xe0554a476a092703abdb3ef35c80e0d76d32939f\"\n                          \"0x7BeA39867e4169DBe237d55C8242a8f2fcDcc387\"]\n                 timestamp_gt:1733080500 timestamp_lt:1733080560 \x7d\n          orderBy:timestamp orderDirection:desc )\n    \x7b\n      amount0\n      amount1\n    \x7d\n  \x7d"

/-- The local variable url of query_graph: the subgraph gateway URL. -/
def graphUrl : String :=
  "https://gateway.thegraph.com/api/da162f6f59fe4400bb44cfb2f36d1336/subgraphs/id/5zvR82QoaXYFyDEKLZ9t6v9adgnptxYpKpSbxtgVENFV"

/-- The local variable header of query_graph. -/
def graphHeader : List (String × String) :=
  [("Content-Type", "application/json")]

/-- query_graph, embedded: builds the POST request from the literals, sends
it, prints the status code, and returns r.json()["data"]. -/
def query_graph (respond : Request → Response) : List Event × Except PyErr Json :=
  let q := graphQL_q
  let url := graphUrl
  let header := graphHeader
  let req := requests.post url header (Json.obj [("query", Json.str q)])
  let r := respond req
  ([Event.sent req, Event.printed r.status_code],
    match r.body with
    | none => Except.error PyErr.jsonDecodeError
    | some j => Json.getItem j "data")

/-- The local variable url of query_binance. -/
def binanceUrl : String :=
  "https://api.binance.com/api/v3/aggTrades?symbol=ETHUSDC&startTime=1733240400000&endTime=1733240460000"

/-- query_binance, embedded: sends the GET request, prints the status code,
and returns r.json() whole. -/
def query_binance (respond : Request → Response) : List Event × Except PyErr Json :=
  let url := binanceUrl
  let req := requests.get url
  let r := respond req
  ([Event.sent req, Event.printed r.status_code],
    match r.body with
    | none => Except.error PyErr.jsonDecodeError
    | some j => Except.ok j)

/-- The request query_graph sends (same term as the let-bound req inside
query_graph). -/
def graphRequest : Request :=
  requests.post graphUrl graphHeader (Json.obj [("query", Json.str graphQL_q)])

/-- The request query_binance sends. -/
def binanceRequest : Request :=
  requests.get binanceUrl

/-! Substring utilities used to state properties of the literal URLs. -/

/-- Whether pat is an initial segment of l. -/
def hasPref : List Char → List Char → Bool
  | _, [] => true
  | [], _ :: _ => false
  | c :: cs, p :: ps => c = p && hasPref cs ps

/-- Whether pat occurs contiguously inside l. -/
def listContains (l pat : List Char) : Bool :=
  match l with
  | [] => pat.isEmpty
  | _ :: cs => hasPref l pat || listContains cs pat

/-- Whether pat occurs contiguously inside s. -/
def strContains (s pat : String) : Bool :=
  listContains s.toList pat.toList

/-- Whether s starts with pat. -/
def strStarts (s pat : String) : Bool :=
  hasPref s.toList pat.toList

/-! A lexer for GraphQL documents, per the GraphQL specification: commas,
spaces, tabs and line terminators are insignificant token separators;
tokens are punctuators, names, integer values and quoted string values. -/

/-- GraphQL lexical tokens (the fragment the document uses). -/
inductive GqlToken where
  | punct (c : Char) : GqlToken
  | name (s : String) : GqlToken
  | int (n : Nat) : GqlToken
  | str (s : String) : GqlToken

/-- Characters the GraphQL lexer ignores between tokens (commas are
insignificant in GraphQL). -/
def isIgnoredChar (c : Char) : Bool :=
  c = ' ' || c = '\t' || c = '\n' || c = '\r' || c = ','

/-- First character of a GraphQL name. -/
def isNameStartChar (c : Char) : Bool :=
  c.isAlpha || c = '_'

/-- Subsequent character of a GraphQL name. -/
def isNameTailChar (c : Char) : Bool :=
  c.isAlphanum || c = '_'

/-- GraphQL punctuator characters used by the document. -/
def isPunctChar (c : Char) : Bool :=
  c = '\x7b' || c = '\x7d' || c = '(' || c = ')' || c = '[' || c = ']' || c = ':'

/-- Decimal digits to a number. -/
def digitsToNat (cs : List Char) : Nat :=
  cs.foldl (fun a c => a * 10 + (c.toNat - 48)) 0

/-- Fuelled GraphQL lexer; every step consumes at least one character, so
fuel = length + 1 always suffices. -/
def lexGqlAux : Nat → List Char → Option (List GqlToken)
  | 0, _ => none
  | _ + 1, [] => some []
  | fuel + 1, c :: cs =>
    if isIgnoredChar c then
      lexGqlAux fuel cs
    else if c = '"' then
      match cs.dropWhile (fun d => !(d = '"')) with
      | '"' :: rest =>
          Option.map (fun ts => GqlToken.str (String.mk (cs.takeWhile (fun d => !(d = '"')))) :: ts)
            (lexGqlAux fuel rest)
      | _ => none
    else if isNameStartChar c then
      Option.map (fun ts => GqlToken.name (String.mk (c :: cs.takeWhile isNameTailChar)) :: ts)
        (lexGqlAux fuel (cs.dropWhile isNameTailChar))
    else if c.isDigit then
      Option.map (fun ts => GqlToken.int (digitsToNat (c :: cs.takeWhile Char.isDigit)) :: ts)
        (lexGqlAux fuel (cs.dropWhile Char.isDigit))
    else if isPunctChar c then
      Option.map (fun ts => GqlToken.punct c :: ts) (lexGqlAux fuel cs)
    else
      none

/-- Lex a GraphQL document into its token sequence; none on a lexing
failure such as an unterminated string. -/
def lexGql (s : String) : Option (List GqlToken) :=
  lexGqlAux (s.toList.length + 1) s.toList

/-- Collect the string values of a GraphQL list literal up to the closing
bracket. -/
def collectStrs : List GqlToken → Option (List String)
  | GqlToken.punct ']' :: _ => some []
  | GqlToken.str s :: rest => Option.map (fun ss => s :: ss) (collectStrs rest)
  | _ => none

/-- The string-list value of the argument named k: scan for name k, a
colon and an opening bracket, and collect the string values. -/
def argStrList (k : String) : List GqlToken → Option (List String)
  | [] => none
  | t :: rest =>
    match t, rest with
    | GqlToken.name n, GqlToken.punct ':' :: GqlToken.punct '[' :: rest2 =>
        if n = k then collectStrs rest2 else argStrList k rest
    | _, _ => argStrList k rest

/-- The integer value of the argument named k. -/
def argInt (k : String) : List GqlToken → Option Nat
  | [] => none
  | t :: rest =>
    match t, rest with
    | GqlToken.name n, GqlToken.punct ':' :: GqlToken.int v :: _ =>
        if n = k then some v else argInt k rest
    | _, _ => argInt k rest

/-- The enum-name value of the argument named k. -/
def argName (k : String) : List GqlToken → Option String
  | [] => none
  | t :: rest =>
    match t, rest with
    | GqlToken.name n, GqlToken.punct ':' :: GqlToken.name v :: _ =>
        if n = k then some v else argName k rest
    | _, _ => argName k rest

/-- Collect the field names of a selection set up to its closing brace. -/
def collectFieldNames : List GqlToken → Option (List String)
  | GqlToken.punct '\x7d' :: _ => some []
  | GqlToken.name n :: rest => Option.map (fun ns => n :: ns) (collectFieldNames rest)
  | _ => none

/-- The field names of the selection set that follows the argument list:
scan for a closing parenthesis followed by an opening brace. -/
def selectionFields : List GqlToken → Option (List String)
  | [] => none
  | t :: rest =>
    match t, rest with
    | GqlToken.punct ')', GqlToken.punct '\x7b' :: rest2 => collectFieldNames rest2
    | _, _ => selectionFields rest

/-- Modelled from the spec: the subgraph gateway that interprets the
where-clause is not part of this repository.  Per the spec, the timestamp
range is lower-exclusive and upper-exclusive: an argument suffixed _gt or
_lt is a strict bound and one suffixed _gte or _lte a weak bound.  This
interprets the timestamp arguments of a token sequence as the predicate a
timestamp must satisfy. -/
def windowPred (toks : List GqlToken) (t : Nat) : Bool :=
  (match argInt "timestamp_gt" toks with
   | some lo => decide (lo < t)
   | none => true) &&
  (match argInt "timestamp_gte" toks with
   | some lo => decide (lo ≤ t)
   | none => true) &&
  (match argInt "timestamp_lt" toks with
   | some hi => decide (t < hi)
   | none => true) &&
  (match argInt "timestamp_lte" toks with
   | some hi => decide (t ≤ hi)
   | none => true)

/-- The token sequence of the document graphQL_q (checked below against
lexGql). -/
def gqlToks : List GqlToken :=
  [GqlToken.punct '\x7b', GqlToken.name "swaps", GqlToken.punct '(',
   GqlToken.name "where", GqlToken.punct ':', GqlToken.punct '\x7b',
   GqlToken.name "pool_in", GqlToken.punct ':', GqlToken.punct '[',
   GqlToken.str "0x88e6a0c2ddd26feeb64f039a2c41296fcb3f5640",
   GqlToken.str "0x8ad599c3a0ff1de082011efddc58f1908eb6e6d8",
   GqlToken.str "0xe0554a476a092703abdb3ef35c80e0d76d32939f",
   GqlToken.str "0x7BeA39867e4169DBe237d55C8242a8f2fcDcc387",
   GqlToken.punct ']',
   GqlToken.name "timestamp_gt", GqlToken.punct ':', GqlToken.int 1733080500,
   GqlToken.name "timestamp_lt", GqlToken.punct ':', GqlToken.int 1733080560,
   GqlToken.punct '\x7d',
   GqlToken.name "orderBy", GqlToken.punct ':', GqlToken.name "timestamp",
   GqlToken.name "orderDirection", GqlToken.punct ':', GqlToken.name "desc",
   GqlToken.punct ')', GqlToken.punct '\x7b',
   GqlToken.name "amount0", GqlToken.name "amount1",
   GqlToken.punct '\x7d', GqlToken.punct '\x7d']

/-! Concrete mocked gateways used by the witnesses below. -/

/-- The data value of the example GraphQL success response. -/
def c1Swaps : Json :=
  Json.obj [("swaps", Json.arr
    [Json.obj [("amount0", Json.str "1.0"), ("amount1", Json.str "-2.0")]])]

/-- Mocked gateway answering every request with the example success body. -/
def c1Respond : Request → Response :=
  fun _ => ⟨200, some (Json.obj [("data", c1Swaps)])⟩

/-- Mocked gateway answering with the example error body, which has no
data key. -/
def c2Respond : Request → Response :=
  fun _ => ⟨200, some (Json.obj
    [("errors", Json.arr [Json.obj [("message", Json.str "bad query")]])])⟩

/-- The example aggregate-trades response body. -/
def c3Body : Json :=
  Json.arr [Json.obj
    [("p", Json.str "3000.5"), ("q", Json.str "0.1"), ("T", Json.num 1733240410000)]]

/-- Mocked REST endpoint answering with the example trade list. -/
def c3Respond : Request → Response :=
  fun _ => ⟨200, some c3Body⟩

/-- The data value of a partial-error GraphQL response. -/
def c9Data : Json :=
  Json.obj [("swaps", Json.arr [])]

/-- The errors value of a partial-error GraphQL response. -/
def c9Errors : Json :=
  Json.arr [Json.obj [("message", Json.str "partial")]]

/-- Mocked gateway answering with a body holding both errors and data. -/
def c9Respond : Request → Response :=
  fun _ => ⟨200, some (Json.obj [("errors", c9Errors), ("data", c9Data)])⟩

/-- Mocked gateway answering a 404 with a JSON body lacking a data key. -/
def c10Respond : Request → Response :=
  fun _ => ⟨404, some (Json.obj [])⟩

/-! The claims. -/

/-- C1: for every HTTP response whose decoded JSON body is a mapping
containing a data key, query_graph returns exactly the value of the data
key, unchanged. -/
theorem query_graph_returns_data_value
    (respond : Request → Response) (fields : List (String × Json)) (v : Json)
    (hbody : (respond graphRequest).body = some (Json.obj fields))
    (hdata : List.lookup "data" fields = some v) :
    (query_graph respond).2 = Except.ok v := by
  have hq : (query_graph respond).2 =
      (match (respond graphRequest).body with
        | none => Except.error PyErr.jsonDecodeError
        | some j => Json.getItem j "data") := rfl
  rw [hq, hbody]
  simp [Json.getItem, hdata]

/-- Witness for C1 at the example success body. -/
theorem query_graph_returns_data_value_witness :
    (query_graph c1Respond).2 = Except.ok c1Swaps :=
  query_graph_returns_data_value c1Respond [("data", c1Swaps)] c1Swaps rfl rfl

/-- C2: for every HTTP response whose decoded JSON body lacks a data key,
and for every response whose body is not valid JSON, query_graph raises an
unhandled error rather than returning any default value. -/
theorem query_graph_fails_without_data
    (respond : Request → Response)
    (h : ∀ j, (respond graphRequest).body = some j → Json.hasKey j "data" = false) :
    ∃ e, (query_graph respond).2 = Except.error e := by
  have hq : (query_graph respond).2 =
      (match (respond graphRequest).body with
        | none => Except.error PyErr.jsonDecodeError
        | some j => Json.getItem j "data") := rfl
  rw [hq]
  cases hb : (respond graphRequest).body with
  | none => exact ⟨PyErr.jsonDecodeError, rfl⟩
  | some j =>
    have hk := h j hb
    cases j with
    | obj fields =>
      simp only [Json.hasKey] at hk
      cases hl : List.lookup "data" fields with
      | none => exact ⟨PyErr.keyError "data", by simp [Json.getItem, hl]⟩
      | some v => rw [hl] at hk; exact absurd hk (by simp)
    | null => exact ⟨PyErr.typeError, rfl⟩
    | bool b => exact ⟨PyErr.typeError, rfl⟩
    | num n => exact ⟨PyErr.typeError, rfl⟩
    | str s => exact ⟨PyErr.typeError, rfl⟩
    | arr elems => exact ⟨PyErr.typeError, rfl⟩

/-- Witness for C2 at the example error body. -/
theorem query_graph_fails_without_data_witness :
    ∃ e, (query_graph c2Respond).2 = Except.error e :=
  query_graph_fails_without_data c2Respond
    (by intro j hj; injection hj with h2; subst h2; rfl)

/-- C3: for every HTTP response with a valid JSON body, query_binance
returns the full decoded JSON body exactly as decoded, with no field
remapping, filtering or projection. -/
theorem query_binance_returns_body
    (respond : Request → Response) (j : Json)
    (hbody : (respond binanceRequest).body = some j) :
    (query_binance respond).2 = Except.ok j := by
  have hq : (query_binance respond).2 =
      (match (respond binanceRequest).body with
        | none => Except.error PyErr.jsonDecodeError
        | some b => Except.ok b) := rfl
  rw [hq, hbody]

/-- Witness for C3 at the example trade list. -/
theorem query_binance_returns_body_witness :
    (query_binance c3Respond).2 = Except.ok c3Body :=
  query_binance_returns_body c3Respond c3Body rfl

/-- C4: the POST body sent by query_graph is valid JSON (a JSON value by
construction) with a query key whose value, lexed as a GraphQL document,
holds the four pool addresses as four distinct elements of the pool_in
list, and the two timestamp bounds. -/
theorem graph_body_references_pools_and_bounds :
    graphRequest.jsonBody = some (Json.obj [("query", Json.str graphQL_q)]) ∧
    lexGql graphQL_q = some gqlToks ∧
    argStrList "pool_in" gqlToks =
      some ["0x88e6a0c2ddd26feeb64f039a2c41296fcb3f5640",
            "0x8ad599c3a0ff1de082011efddc58f1908eb6e6d8",
            "0xe0554a476a092703abdb3ef35c80e0d76d32939f",
            "0x7BeA39867e4169DBe237d55C8242a8f2fcDcc387"] ∧
    (["0x88e6a0c2ddd26feeb64f039a2c41296fcb3f5640",
      "0x8ad599c3a0ff1de082011efddc58f1908eb6e6d8",
      "0xe0554a476a092703abdb3ef35c80e0d76d32939f",
      "0x7BeA39867e4169DBe237d55C8242a8f2fcDcc387"] : List String).Nodup ∧
    argInt "timestamp_gt" gqlToks = some 1733080500 ∧
    argInt "timestamp_lt" gqlToks = some 1733080560 :=
  ⟨rfl, rfl, rfl, by decide, rfl, rfl⟩

/-- C5: the GET URL issued by query_binance contains symbol=ETHUSDC,
startTime=1733240400000 and endTime=1733240460000 literally, and targets
the path /api/v3/aggTrades. -/
theorem binance_url_params (respond : Request → Response) :
    (query_binance respond).1.head? = some (Event.sent binanceRequest) ∧
    binanceRequest.method = Method.get ∧
    binanceRequest.url = binanceUrl ∧
    strStarts binanceUrl "https://api.binance.com/api/v3/aggTrades?" = true ∧
    strContains binanceUrl "symbol=ETHUSDC" = true ∧
    strContains binanceUrl "startTime=1733240400000" = true ∧
    strContains binanceUrl "endTime=1733240460000" = true :=
  ⟨rfl, rfl, rfl, rfl, rfl, rfl, rfl⟩

/-- C6: every call of query_graph and every call of query_binance sends
exactly one HTTP request, whatever the mocked HTTP layer answers. -/
theorem one_request_per_call (respond : Request → Response) :
    List.filter Event.isSent (query_graph respond).1 = [Event.sent graphRequest] ∧
    List.filter Event.isSent (query_binance respond).1 = [Event.sent binanceRequest] :=
  ⟨rfl, rfl⟩

/-- C7: query_graph sends an HTTP POST to the fixed gateway URL with a
Content-Type: application/json header, and the request body is the JSON
object with single key query holding the GraphQL document. -/
theorem graph_request_shape (respond : Request → Response) :
    (query_graph respond).1.head? = some (Event.sent graphRequest) ∧
    graphRequest.method = Method.post ∧
    graphRequest.url =
      "https://gateway.thegraph.com/api/da162f6f59fe4400bb44cfb2f36d1336/subgraphs/id/5zvR82QoaXYFyDEKLZ9t6v9adgnptxYpKpSbxtgVENFV" ∧
    graphRequest.headers = [("Content-Type", "application/json")] ∧
    graphRequest.jsonBody = some (Json.obj [("query", Json.str graphQL_q)]) :=
  ⟨rfl, rfl, rfl, rfl, rfl⟩

/-- C8: the GraphQL document of query_graph selects exactly the fields
amount0 and amount1, orders by timestamp descending, and its timestamp
window is exclusive at both ends: the where-arguments admit exactly the
timestamps strictly between the two bounds. -/
theorem graph_document_fields_window_order :
    lexGql graphQL_q = some gqlToks ∧
    selectionFields gqlToks = some ["amount0", "amount1"] ∧
    argName "orderBy" gqlToks = some "timestamp" ∧
    argName "orderDirection" gqlToks = some "desc" ∧
    (∀ t : Nat, windowPred gqlToks t =
      (decide (1733080500 < t) && decide (t < 1733080560))) := by
  refine ⟨rfl, rfl, rfl, rfl, ?_⟩
  intro t
  have h1 : argInt "timestamp_gt" gqlToks = some 1733080500 := rfl
  have h2 : argInt "timestamp_gte" gqlToks = none := rfl
  have h3 : argInt "timestamp_lt" gqlToks = some 1733080560 := rfl
  have h4 : argInt "timestamp_lte" gqlToks = none := rfl
  simp only [windowPred, h1, h2, h3, h4, Bool.and_true]

/-- Key lookup in an association list finds the data entry when no earlier
entry is keyed data. -/
theorem lookup_data_append (pre post : List (String × Json)) (v : Json)
    (hpre : ∀ p ∈ pre, p.1 ≠ "data") :
    List.lookup "data" (pre ++ ("data", v) :: post) = some v := by
  induction pre with
  | nil => simp [List.lookup]
  | cons a rest ih =>
    have ha : a.1 ≠ "data" := hpre a (List.mem_cons_self a rest)
    have hrest : ∀ p ∈ rest, p.1 ≠ "data" := fun p hp => hpre p (List.mem_cons_of_mem a hp)
    cases a with
    | mk k jv =>
      have hne : ("data" == k) = false := by
        simp only [beq_eq_false_iff_ne]
        exact fun hh => ha hh.symm
      simp [List.lookup, hne, ih hrest]

/-- C9: for every HTTP response whose decoded JSON body is a mapping with
a data key together with any other top-level keys, query_graph returns
only the data value, silently discarding the other keys, and raises no
error. -/
theorem query_graph_discards_extra_keys
    (respond : Request → Response) (pre post : List (String × Json)) (v : Json)
    (hbody : (respond graphRequest).body = some (Json.obj (pre ++ ("data", v) :: post)))
    (hpre : ∀ p ∈ pre, p.1 ≠ "data") :
    (query_graph respond).2 = Except.ok v := by
  have hq : (query_graph respond).2 =
      (match (respond graphRequest).body with
        | none => Except.error PyErr.jsonDecodeError
        | some j => Json.getItem j "data") := rfl
  rw [hq, hbody]
  simp [Json.getItem, lookup_data_append pre post v hpre]

/-- Witness for C9 at a partial-error body with both errors and data. -/
theorem query_graph_discards_extra_keys_witness :
    (query_graph c9Respond).2 = Except.ok c9Data :=
  query_graph_discards_extra_keys c9Respond [("errors", c9Errors)] [] c9Data rfl
    (by intro p hp; rw [List.mem_singleton] at hp; subst hp; decide)

/-- C10: each call prints the HTTP status code right after the response
arrives: the trace of query_graph is the sent request then the printed
status, before the data lookup, so whenever the lookup or the JSON
decoding fails the status has already been printed; query_binance prints
the status before returning unconditionally. -/
theorem status_code_printed_before_lookup (respond : Request → Response) :
    (query_graph respond).1 =
      [Event.sent graphRequest, Event.printed (respond graphRequest).status_code] ∧
    (query_binance respond).1 =
      [Event.sent binanceRequest, Event.printed (respond binanceRequest).status_code] ∧
    (∀ e, (query_graph respond).2 = Except.error e →
      Event.printed (respond graphRequest).status_code ∈ (query_graph respond).1) := by
  refine ⟨rfl, rfl, ?_⟩
  intro e _
  have h : (query_graph respond).1 =
      [Event.sent graphRequest, Event.printed (respond graphRequest).status_code] := rfl
  rw [h]
  simp

/-- Witness for C10 at a 404 response whose body lacks the data key. -/
theorem status_code_printed_before_lookup_witness :
    Event.printed 404 ∈ (query_graph c10Respond).1 :=
  (status_code_printed_before_lookup c10Respond).2.2 (PyErr.keyError "data") rfl
